import Mathlib

/-!
Shallow embedding of the per-connection request-handling pipeline of the
COMP2322 HTTP file server (src/main.py).  Pure fragments of the Python code
become Lean functions; the socket sends and the log appends become lists of
emitted chunks and log lines collected in a result structure; Python
exceptions inside the guarded block become explicit branches that land in
the catch-all 500 handler.  Library functions from the Python standard
library (str.splitlines, str.split, bytes.decode, os.path.splitext,
email.utils.formatdate, email.utils.parsedate_to_datetime) are modelled by
executable Lean functions documented at their definitions.
-/

/-- Whitespace predicate modelling the character class used by Python
str.split with no arguments and str.strip (ASCII and Latin-1 whitespace;
the rarely used wider Unicode space classes are not modelled). -/
def pyIsSpace (c : Char) : Bool :=
  c == ' ' || c == '\t' || c == '\n' || c == '\r' || c == Char.ofNat 0x0B ||
  c == Char.ofNat 0x0C || c == Char.ofNat 0x1C || c == Char.ofNat 0x1D ||
  c == Char.ofNat 0x1E || c == Char.ofNat 0x85 || c == Char.ofNat 0xA0

/-- Line-boundary predicate modelling Python str.splitlines. -/
def isLineBreakChar (c : Char) : Bool :=
  c == '\n' || c == '\r' || c == Char.ofNat 0x0B || c == Char.ofNat 0x0C ||
  c == Char.ofNat 0x1C || c == Char.ofNat 0x1D || c == Char.ofNat 0x1E ||
  c == Char.ofNat 0x85 || c == Char.ofNat 0x2028 || c == Char.ofNat 0x2029

/-- Helper for pySplitlines: the accumulator holds the current line in
reverse; a CR immediately followed by LF counts as a single boundary. -/
def splitlinesAux : List Char → List Char → List String
  | [], acc => if acc.isEmpty then [] else [String.mk acc.reverse]
  | '\r' :: '\n' :: rest, acc => String.mk acc.reverse :: splitlinesAux rest []
  | c :: rest, acc =>
    if isLineBreakChar c then String.mk acc.reverse :: splitlinesAux rest []
    else splitlinesAux rest (c :: acc)

/-- Model of Python str.splitlines (no keepends). -/
def pySplitlines (s : String) : List String := splitlinesAux s.data []

/-- Helper for pySplitWs: splits on runs of whitespace, discarding empties. -/
def wordsAux : List Char → List Char → List String
  | [], acc => if acc.isEmpty then [] else [String.mk acc.reverse]
  | c :: rest, acc =>
    if pyIsSpace c then
      if acc.isEmpty then wordsAux rest [] else String.mk acc.reverse :: wordsAux rest []
    else wordsAux rest (c :: acc)

/-- Model of Python str.split with no arguments. -/
def pySplitWs (s : String) : List String := wordsAux s.data []

/-- Model of Python str.startswith. -/
def pyStartswith (s pre : String) : Bool := pre.data.isPrefixOf s.data

/-- Model of Python str.strip with no arguments. -/
def pyStrip (s : String) : String :=
  String.mk (((s.data.dropWhile pyIsSpace).reverse.dropWhile pyIsSpace).reverse)

/-- Helper for afterColon: drops everything up to and including the first
colon.  Returns the empty list when there is no colon; the pipeline only
applies it to strings that are known to contain a colon. -/
def afterColonAux : List Char → List Char
  | [] => []
  | c :: rest => if c = ':' then rest else afterColonAux rest

/-- Model of the expression header.split(":", 1)[1] from src/main.py line
112: the part of the string after the first colon. -/
def afterColon (s : String) : String := String.mk (afterColonAux s.data)

/-- Model of Python path.lstrip("/"): removes every leading slash
(src/main.py line 76). -/
def lstripSlash (s : String) : String := String.mk (s.data.dropWhile (fun c => c = '/'))

/-- Model of the extension component of Python os.path.splitext: the
substring from the last dot of the basename, provided some earlier
character of the basename is not a dot (so dotfiles have no extension). -/
def splitext_ext (p : String) : String :=
  let bn := (p.data.reverse.takeWhile (fun c => c ≠ '/')).reverse
  if bn.contains '.' then
    let extCand := (bn.reverse.takeWhile (fun c => c ≠ '.')).reverse
    let pre := bn.take (bn.length - extCand.length - 1)
    if pre.any (fun c => c ≠ '.') then String.mk ('.' :: extCand) else ""
  else ""

/-- Decimal digit rendering used by the date-string model. -/
def digitChar : Nat → Char
  | 0 => '0' | 1 => '1' | 2 => '2' | 3 => '3' | 4 => '4'
  | 5 => '5' | 6 => '6' | 7 => '7' | 8 => '8' | _ => '9'

/-- Inverse of digitChar on decimal digits. -/
def charDigit (c : Char) : Nat :=
  if c = '0' then 0 else if c = '1' then 1 else if c = '2' then 2
  else if c = '3' then 3 else if c = '4' then 4 else if c = '5' then 5
  else if c = '6' then 6 else if c = '7' then 7 else if c = '8' then 8 else 9

/-- Recognizer for decimal digit characters. -/
def isDigitChar (c : Char) : Bool :=
  c == '0' || c == '1' || c == '2' || c == '3' || c == '4' ||
  c == '5' || c == '6' || c == '7' || c == '8' || c == '9'

/-- Helper producing the little-endian decimal digits of a natural
number; the first argument is recursion fuel (the number itself always
suffices, since dividing a positive number by ten strictly decreases
it). -/
def natDigitsAux : Nat → Nat → List Nat
  | _, 0 => []
  | 0, _ + 1 => []
  | fuel + 1, n + 1 => (n + 1) % 10 :: natDigitsAux fuel ((n + 1) / 10)

/-- Little-endian decimal digits of a natural number. -/
def natDigits (n : Nat) : List Nat := natDigitsAux n n

/-- Model of email.utils.formatdate applied to a timestamp (src/main.py
line 109).  The real function renders the whole-second part of the
timestamp as an RFC 1123 date string via time.gmtime, which truncates
toward minus infinity; RFC 1123 dates have one-second resolution, so the
rendering is an injective encoding of the floor of the timestamp.  The
model keeps exactly that contract with a compact encoding: a marker
character, a sign character, and the decimal digits of the floor. -/
def formatdate (t : ℚ) : String :=
  String.mk ('D' :: (if Int.floor t < 0 then '-' else '+') ::
    ((natDigits (Int.floor t).natAbs).map digitChar).reverse)

/-- Helper for parsedate_to_timestamp, working on the character list. -/
def parsedateAux : List Char → Option ℚ
  | 'D' :: sign :: ds =>
    if (sign = '+' ∨ sign = '-') ∧ ds.all isDigitChar then
      some (if sign = '-' then -(((Nat.ofDigits 10 (ds.reverse.map charDigit) : ℕ) : ℚ))
            else (((Nat.ofDigits 10 (ds.reverse.map charDigit) : ℕ) : ℚ)))
    else none
  | _ => none

/-- Model of email.utils.parsedate_to_datetime followed by .timestamp()
(src/main.py line 113): parses a date string back to a whole-second
timestamp, failing (raising, in Python) on anything that is not a
well-formed date string. -/
def parsedate_to_timestamp (s : String) : Option ℚ := parsedateAux s.data

/-- Continuation-byte test for the UTF-8 decoder model. -/
def isContByte (b : Nat) : Bool := decide (0x80 ≤ b ∧ b < 0xC0)

/-- Second-byte constraint for three-byte UTF-8 sequences (excludes
overlong forms and surrogates). -/
def e0SecondOk (b b2 : Nat) : Bool :=
  if b = 0xE0 then decide (0xA0 ≤ b2 ∧ b2 < 0xC0)
  else if b = 0xED then decide (0x80 ≤ b2 ∧ b2 < 0xA0)
  else isContByte b2

/-- Second-byte constraint for four-byte UTF-8 sequences. -/
def f0SecondOk (b b2 : Nat) : Bool :=
  if b = 0xF0 then decide (0x90 ≤ b2 ∧ b2 < 0xC0)
  else if b = 0xF4 then decide (0x80 ≤ b2 ∧ b2 < 0x90)
  else isContByte b2

/-- Model of Python bytes.decode("utf-8", errors="ignore") (src/main.py
line 60): decodes valid UTF-8 sequences and silently discards bytes that
do not form one, never raising.  The first argument is recursion fuel;
every step consumes at least one input byte, so fuel equal to the input
length (as supplied by decodeLenient) never runs out. -/
def decodeAux : Nat → List Nat → List Char
  | _, [] => []
  | 0, _ :: _ => []
  | fuel + 1, b :: rest =>
    if b < 0x80 then Char.ofNat b :: decodeAux fuel rest
    else if 0xC2 ≤ b ∧ b < 0xE0 then
      match rest with
      | [] => []
      | b2 :: rest2 =>
        if isContByte b2 then
          Char.ofNat ((b - 0xC0) * 0x40 + (b2 - 0x80)) :: decodeAux fuel rest2
        else decodeAux fuel (b2 :: rest2)
    else if 0xE0 ≤ b ∧ b < 0xF0 then
      match rest with
      | b2 :: b3 :: rest3 =>
        if e0SecondOk b b2 && isContByte b3 then
          Char.ofNat ((b - 0xE0) * 0x1000 + (b2 - 0x80) * 0x40 + (b3 - 0x80)) ::
            decodeAux fuel rest3
        else decodeAux fuel (b2 :: b3 :: rest3)
      | [b2] => decodeAux fuel [b2]
      | [] => []
    else if 0xF0 ≤ b ∧ b ≤ 0xF4 then
      match rest with
      | b2 :: b3 :: b4 :: rest4 =>
        if f0SecondOk b b2 && isContByte b3 && isContByte b4 then
          Char.ofNat ((b - 0xF0) * 0x40000 + (b2 - 0x80) * 0x1000 +
            (b3 - 0x80) * 0x40 + (b4 - 0x80)) :: decodeAux fuel rest4
        else decodeAux fuel (b2 :: b3 :: b4 :: rest4)
      | [b2, b3] => decodeAux fuel [b2, b3]
      | [b2] => decodeAux fuel [b2]
      | [] => []
    else decodeAux fuel rest

/-- Lenient decode of a received byte buffer to the request string. -/
def decodeLenient (buf : List Nat) : String := String.mk (decodeAux buf.length buf)

/-- UTF-8 encoding of one character, for the model of str.encode. -/
def utf8Bytes (c : Char) : List Nat :=
  let n := c.toNat
  if n < 0x80 then [n]
  else if n < 0x800 then [0xC0 + n / 0x40, 0x80 + n % 0x40]
  else if n < 0x10000 then [0xE0 + n / 0x1000, 0x80 + n / 0x40 % 0x40, 0x80 + n % 0x40]
  else [0xF0 + n / 0x40000, 0x80 + n / 0x1000 % 0x40, 0x80 + n / 0x40 % 0x40, 0x80 + n % 0x40]

/-- Model of Python str.encode (UTF-8), used for every sendall call. -/
def encode (s : String) : List Nat := (s.data.map utf8Bytes).flatten

/-- Configured default page (src/main.py line 14). -/
def DEFAULT_PAGE : String := "index.html"

/-- Supported MIME and media types (src/main.py lines 17-24). -/
def MEDIA_TYPES : List (String × String) :=
  [(".html", "text/html"), (".txt", "text/plain"), (".jpg", "image/jpeg"),
   (".jpeg", "image/jpeg"), (".png", "image/png"), (".gif", "image/gif")]

/-- Messages for all supported status codes (src/main.py lines 27-35).
Only the seven listed keys are ever accessed; the catch-all arm carries
the 500 message. -/
def ERROR : Nat → String
  | 200 => "200 OK"
  | 304 => "304 Not Modified"
  | 400 => "400 Bad Request"
  | 403 => "403 Forbidden"
  | 404 => "404 File Not Found"
  | 415 => "415 Unsupported Media Type"
  | _ => "500 Internal Server Error"

/-- Observed state of one file: its raw bytes and its modification
timestamp in seconds (os.path.getmtime returns a float; modelled as a
rational). -/
structure FileInfo where
  content : List Nat
  mtime : ℚ
deriving DecidableEq

/-- The filesystem as observed by the server: an association list from
relative path to file state.  os.path.exists corresponds to a successful
lookup. -/
abbrev FS := List (String × FileInfo)

/-- Model of log_request (src/main.py lines 38-40): the single line
appended to the log file. -/
def log_line (client_ip request_time file_requested response_status : String) : String :=
  client_ip ++ " - " ++ request_time ++ " - " ++ file_requested ++ " - " ++
    response_status ++ "\n"

/-- Model of generate_headers (src/main.py lines 43-54).  The Date value
is the current time, passed in as the parameter now.  The three optional
field lines reproduce the truthiness tests of the Python code: a None
value, an empty string, and the integer 0 all suppress the field line. -/
def generate_headers (now status : String) (content_type : Option String)
    (content_length : Option Nat) (last_modified : Option String)
    (connection : String) : String :=
  "HTTP/1.1 " ++ status ++ "\r\n"
  ++ "Date: " ++ now ++ "\r\n"
  ++ "Server: COMP2322Project_PythonServer/1.0\r\n"
  ++ (match content_type with
      | some ct => if ct ≠ "" then "Content-Type: " ++ ct ++ "\r\n" else ""
      | none => "")
  ++ (match content_length with
      | some n => if n ≠ 0 then "Content-Length: " ++ Nat.repr n ++ "\r\n" else ""
      | none => "")
  ++ (match last_modified with
      | some lm => if lm ≠ "" then "Last-Modified: " ++ lm ++ "\r\n" else ""
      | none => "")
  ++ "Connection: " ++ connection ++ "\r\n\r\n"

/-- Observable outcome of one handled connection: the byte chunks passed
to sendall, in order, and the lines appended to the log file, in order. -/
structure HandleResult where
  sent : List (List Nat)
  logs : List String
deriving DecidableEq

/-- Path resolution from src/main.py lines 76-78: strip leading slashes,
then substitute the default page for an empty result. -/
def resolve_target (path : String) : String :=
  let file_requested := lstripSlash path
  if file_requested = "" then DEFAULT_PAGE else file_requested

/-- Outcome of the If-Modified-Since scan: answer 304, continue to
content serving, or raise (a parse failure propagates to the catch-all
exception handler). -/
inductive CondResult
  | ret304 : CondResult
  | cont : CondResult
  | crash : CondResult
deriving DecidableEq

/-- The If-Modified-Since value of a header line: the stripped text after
the first colon (src/main.py line 112). -/
def imsValue (l : String) : String := pyStrip (afterColon l)

/-- Model of the header loop of src/main.py lines 110-119: scan every
received line; on a line starting with the If-Modified-Since name, parse
its value and answer 304 when the parsed timestamp is at least the
modification timestamp, otherwise keep scanning. -/
def scanIMS (mtime : ℚ) : List String → CondResult
  | [] => CondResult.cont
  | h :: rest =>
    if pyStartswith h "If-Modified-Since:" then
      match parsedate_to_timestamp (imsValue h) with
      | none => CondResult.crash
      | some t => if t ≥ mtime then CondResult.ret304 else scanIMS mtime rest
    else scanIMS mtime rest

/-- The catch-all exception handler of src/main.py lines 141-146: send a
500 response and log with the Unknown Error label. -/
def serverError (now ip : String) : HandleResult :=
  { sent := [encode (generate_headers now (ERROR 500) none none none "close" ++ ERROR 500)],
    logs := [log_line ip now "Unknown Error" (ERROR 500)] }

/-- Method dispatch of src/main.py lines 124-139: GET sends headers plus
the file bytes, HEAD sends headers only, anything else is the semantic
400 with the Invalid Method log label. -/
def serveContent (now ip method file_requested : String) (fi : FileInfo)
    (media_type : String) : HandleResult :=
  let last_modified := formatdate fi.mtime
  if method = "GET" then
    { sent := [encode (generate_headers now (ERROR 200) (some media_type)
        (some fi.content.length) (some last_modified) "close") ++ fi.content],
      logs := [log_line ip now file_requested (ERROR 200)] }
  else if method = "HEAD" then
    { sent := [encode (generate_headers now (ERROR 200) (some media_type)
        (some fi.content.length) (some last_modified) "close")],
      logs := [log_line ip now file_requested (ERROR 200)] }
  else
    { sent := [encode (generate_headers now (ERROR 400) none none none "close" ++
        (ERROR 400 ++ ": Unsupported HTTP method."))],
      logs := [log_line ip now "Invalid Method" (ERROR 400)] }

/-- Pipeline stages after a successful three-token parse (src/main.py
lines 76-139): path resolution, hidden-file rejection, existence check,
media-type classification, conditional evaluation, then method dispatch.
A crash in the conditional scan lands in the catch-all 500 handler. -/
def afterParse (now : String) (fs : FS) (ip : String) (request_lines : List String)
    (method path : String) : HandleResult :=
  let file_requested := resolve_target path
  if pyStartswith file_requested "." then
    { sent := [encode (generate_headers now (ERROR 403) none none none "close" ++
        (ERROR 403 ++ ": You do not have permission to access this resource."))],
      logs := [log_line ip now file_requested (ERROR 403)] }
  else
    match List.lookup file_requested fs with
    | none =>
      { sent := [encode (generate_headers now (ERROR 404) none none none "close" ++ ERROR 404)],
        logs := [log_line ip now file_requested (ERROR 404)] }
    | some fi =>
      match List.lookup (splitext_ext file_requested) MEDIA_TYPES with
      | none =>
        { sent := [encode (generate_headers now (ERROR 415) none none none "close" ++
            (ERROR 415 ++ ": The requested file type is not supported."))],
          logs := [log_line ip now file_requested (ERROR 415)] }
      | some media_type =>
        match scanIMS fi.mtime request_lines with
        | CondResult.crash => serverError now ip
        | CondResult.ret304 =>
          { sent := [encode (generate_headers now (ERROR 304) none none none "close")],
            logs := [log_line ip now file_requested (ERROR 304)] }
        | CondResult.cont => serveContent now ip method file_requested fi media_type

/-- Model of handle_client (src/main.py lines 57-149).  The parameter now
stands for the current wall-clock reading, fs for the observed filesystem,
client_ip for client_address[0], and buf for the bytes returned by the
single recv call.  An empty decoded request closes silently; a first line
with fewer than three tokens is the syntactic 400; a first line with more
than three tokens passes that guard but makes the three-way unpacking on
line 75 raise, landing in the catch-all 500 handler. -/
def handle_client (now : String) (fs : FS) (client_ip : String) (buf : List Nat) :
    HandleResult :=
  let request := decodeLenient buf
  if request = "" then { sent := [], logs := [] }
  else
    let request_lines := pySplitlines request
    if request_lines = [] ∨ (pySplitWs (request_lines.headD "")).length < 3 then
      { sent := [encode (generate_headers now (ERROR 400) none none none "close" ++ ERROR 400)],
        logs := [log_line client_ip now "Malformed HTTP request" (ERROR 400)] }
    else
      match pySplitWs (request_lines.headD "") with
      | [method, path, _] => afterParse now fs client_ip request_lines method path
      | _ => serverError now client_ip

/-- The target token of a decoded request, when its first line has exactly
three tokens; used to say which resource label a log entry carries. -/
def requestTarget (req : String) : String :=
  match pySplitWs ((pySplitlines req).headD "") with
  | [_, path, _] => path
  | _ => ""

/-- Executable contiguous-subsequence test, used to state that a byte or
character sequence does or does not occur inside another. -/
def containsSeq [BEq α] (sub l : List α) : Bool :=
  (List.range (l.length + 1)).any fun i => sub.isPrefixOf (l.drop i)

/-! Helper lemmas. -/

theorem charDigit_digitChar {d : Nat} (hd : d < 10) : charDigit (digitChar d) = d := by
  interval_cases d <;> rfl

theorem isDigitChar_digitChar (d : Nat) : isDigitChar (digitChar d) = true := by
  rcases d with _|_|_|_|_|_|_|_|_|d <;> rfl

theorem natDigitsAux_eq_digits : ∀ fuel n, n ≤ fuel → natDigitsAux fuel n = Nat.digits 10 n := by
  intro fuel
  induction fuel with
  | zero =>
    intro n hn
    interval_cases n
    simp [natDigitsAux, Nat.digits_zero]
  | succ fuel ih =>
    intro n hn
    match n with
    | 0 => simp [natDigitsAux, Nat.digits_zero]
    | m + 1 =>
      rw [natDigitsAux, Nat.digits_def' (by norm_num : (1:ℕ) < 10) (Nat.succ_pos m)]
      congr 1
      apply ih
      have hlt : (m + 1) / 10 < m + 1 := Nat.div_lt_self (Nat.succ_pos m) (by norm_num)
      omega

theorem natDigits_eq_digits (n : Nat) : natDigits n = Nat.digits 10 n :=
  natDigitsAux_eq_digits n n le_rfl

theorem formatdate_ne_empty (t : ℚ) : formatdate t ≠ "" := by
  unfold formatdate
  intro h
  have h2 := congrArg String.data h
  simp at h2

/-- Round trip of the modelled date codec: parsing the rendered date of a
timestamp yields exactly its floor, i.e. the whole-second truncation. -/
theorem parsedate_formatdate (t : ℚ) :
    parsedate_to_timestamp (formatdate t) = some ((Int.floor t : ℤ) : ℚ) := by
  have hdig : ∀ d ∈ Nat.digits 10 (Int.floor t).natAbs, d < 10 :=
    fun d hd => Nat.digits_lt_base (by norm_num) hd
  have hall : (((Nat.digits 10 (Int.floor t).natAbs).map digitChar).reverse).all isDigitChar
      = true := by
    rw [List.all_eq_true]
    intro c hc
    simp only [List.mem_reverse, List.mem_map] at hc
    obtain ⟨d, _, rfl⟩ := hc
    exact isDigitChar_digitChar d
  have hback : ((((Nat.digits 10 (Int.floor t).natAbs).map digitChar).reverse).reverse.map
      charDigit) = Nat.digits 10 (Int.floor t).natAbs := by
    rw [List.reverse_reverse, List.map_map]
    have : ∀ d ∈ Nat.digits 10 (Int.floor t).natAbs, (charDigit ∘ digitChar) d = id d :=
      fun d hd => charDigit_digitChar (hdig d hd)
    rw [List.map_congr_left this, List.map_id]
  unfold formatdate parsedate_to_timestamp
  rw [natDigits_eq_digits]
  by_cases hneg : Int.floor t < 0
  · simp only [hneg, if_true, parsedateAux, hall, and_true, hback]
    rw [if_pos (Or.inr trivial)]
    rw [Nat.ofDigits_digits]
    have h1 : ((Int.floor t).natAbs : ℤ) = -Int.floor t :=
      Int.ofNat_natAbs_of_nonpos (le_of_lt hneg)
    have h2 := congrArg (fun z : ℤ => (z : ℚ)) h1
    simp only [Int.cast_natCast, Int.cast_neg] at h2
    simp only [Option.some_inj, h2]
    ring
  · simp only [hneg, if_false, parsedateAux, hall, and_true, hback]
    rw [if_pos (Or.inl trivial), if_neg (by decide)]
    rw [Nat.ofDigits_digits]
    have h1 : ((Int.floor t).natAbs : ℤ) = Int.floor t :=
      Int.natAbs_of_nonneg (not_lt.mp hneg)
    have h2 := congrArg (fun z : ℤ => (z : ℚ)) h1
    simp only [Int.cast_natCast] at h2
    simp only [Option.some_inj, h2]

/-- The If-Modified-Since scan continues to content serving when every
If-Modified-Since line parses to a timestamp strictly below the
modification time (in particular when there is no such line). -/
theorem scanIMS_cont (m : ℚ) (lines : List String)
    (h : ∀ l ∈ lines, pyStartswith l "If-Modified-Since:" = true →
      ∃ t, parsedate_to_timestamp (imsValue l) = some t ∧ t < m) :
    scanIMS m lines = CondResult.cont := by
  induction lines with
  | nil => rfl
  | cons hd tl ih =>
    unfold scanIMS
    by_cases hs : pyStartswith hd "If-Modified-Since:" = true
    · obtain ⟨t, hp, ht⟩ := h hd (by simp) hs
      rw [hs, hp]
      simp only [if_true]
      rw [if_neg (not_le.mpr ht)]
      exact ih (fun l hl hpre => h l (List.mem_cons_of_mem hd hl) hpre)
    · rw [Bool.not_eq_true] at hs
      rw [hs]
      simp only [Bool.false_eq_true, if_false]
      exact ih (fun l hl hpre => h l (List.mem_cons_of_mem hd hl) hpre)

/-- The If-Modified-Since scan answers 304 when every If-Modified-Since
line parses successfully, and at least one of them parses to a timestamp
at or above the modification time. -/
theorem scanIMS_ret304 (m : ℚ) (lines : List String)
    (hall : ∀ l ∈ lines, pyStartswith l "If-Modified-Since:" = true →
      ∃ t, parsedate_to_timestamp (imsValue l) = some t)
    (hex : ∃ l ∈ lines, pyStartswith l "If-Modified-Since:" = true ∧
      ∃ t, parsedate_to_timestamp (imsValue l) = some t ∧ m ≤ t) :
    scanIMS m lines = CondResult.ret304 := by
  induction lines with
  | nil => obtain ⟨l, hl, _⟩ := hex; cases hl
  | cons hd tl ih =>
    unfold scanIMS
    by_cases hs : pyStartswith hd "If-Modified-Since:" = true
    · obtain ⟨t, hp⟩ := hall hd (by simp) hs
      rw [hs, hp]
      simp only [if_true]
      by_cases hge : t ≥ m
      · rw [if_pos hge]
      · rw [if_neg hge]
        apply ih (fun l hl hpre => hall l (List.mem_cons_of_mem hd hl) hpre)
        obtain ⟨l, hl, hpre, t', hp', ht'⟩ := hex
        rcases List.mem_cons.mp hl with rfl | hltl
        · rw [hp] at hp'
          cases hp'
          exact absurd ht' hge
        · exact ⟨l, hltl, hpre, t', hp', ht'⟩
    · rw [Bool.not_eq_true] at hs
      rw [hs]
      simp only [Bool.false_eq_true, if_false]
      apply ih (fun l hl hpre => hall l (List.mem_cons_of_mem hd hl) hpre)
      obtain ⟨l, hl, hpre, hrest⟩ := hex
      rcases List.mem_cons.mp hl with rfl | hltl
      · rw [hs] at hpre; cases hpre
      · exact ⟨l, hltl, hpre, hrest⟩

/-- The empty string splits into no lines. -/
theorem pySplitlines_empty : pySplitlines "" = [] := rfl

/-- Unfolding lemma: when the decoded request splits into a first line of
exactly three tokens, handle_client runs the post-parse pipeline on those
tokens. -/
theorem handle_client_eq_afterParse
    (now : String) (fs : FS) (ip : String) (buf : List Nat)
    (line1 : String) (rest : List String) (method path ver : String)
    (hlines : pySplitlines (decodeLenient buf) = line1 :: rest)
    (hsplit : pySplitWs line1 = [method, path, ver]) :
    handle_client now fs ip buf = afterParse now fs ip (line1 :: rest) method path := by
  have hne : decodeLenient buf ≠ "" := by
    intro h
    rw [h, pySplitlines_empty] at hlines
    cases hlines
  unfold handle_client
  rw [if_neg hne, hlines]
  simp only [List.headD_cons, hsplit]
  rw [if_neg (by simp)]

/-- Every header block built by generate_headers starts with the status
line for its status argument. -/
theorem generate_headers_status (now status : String) (ct : Option String)
    (cl : Option Nat) (lm : Option String) (conn : String) :
    ∃ z, (generate_headers now status ct cl lm conn).data =
      ("HTTP/1.1 " ++ status ++ "\r\n").data ++ z := by
  refine ⟨("Date: " ++ now ++ "\r\n" ++ "Server: COMP2322Project_PythonServer/1.0\r\n"
    ++ (match ct with
        | some c => if c ≠ "" then "Content-Type: " ++ c ++ "\r\n" else ""
        | none => "")
    ++ (match cl with
        | some n => if n ≠ 0 then "Content-Length: " ++ Nat.repr n ++ "\r\n" else ""
        | none => "")
    ++ (match lm with
        | some l => if l ≠ "" then "Last-Modified: " ++ l ++ "\r\n" else ""
        | none => "")
    ++ "Connection: " ++ conn ++ "\r\n\r\n").data, ?_⟩
  simp [generate_headers, String.data_append, List.append_assoc]

/-- When a nonzero content length is supplied, the header block contains
the corresponding Content-Length field line. -/
theorem generate_headers_cl (now status : String) (ct : Option String) (n : Nat)
    (hn : n ≠ 0) (lm : Option String) (conn : String) :
    ∃ x y, (generate_headers now status ct (some n) lm conn).data =
      x ++ ("Content-Length: " ++ Nat.repr n ++ "\r\n").data ++ y := by
  refine ⟨("HTTP/1.1 " ++ status ++ "\r\n" ++ "Date: " ++ now ++ "\r\n"
      ++ "Server: COMP2322Project_PythonServer/1.0\r\n"
      ++ (match ct with
          | some c => if c ≠ "" then "Content-Type: " ++ c ++ "\r\n" else ""
          | none => "")).data,
    ((match lm with
        | some l => if l ≠ "" then "Last-Modified: " ++ l ++ "\r\n" else ""
        | none => "")
      ++ "Connection: " ++ conn ++ "\r\n\r\n").data, ?_⟩
  simp [generate_headers, hn, String.data_append, List.append_assoc]

/-- When a nonempty last-modified value is supplied, the header block
contains the corresponding Last-Modified field line. -/
theorem generate_headers_lm (now status : String) (ct : Option String) (cl : Option Nat)
    (lm : String) (hlm : lm ≠ "") (conn : String) :
    ∃ x y, (generate_headers now status ct cl (some lm) conn).data =
      x ++ ("Last-Modified: " ++ lm ++ "\r\n").data ++ y := by
  refine ⟨("HTTP/1.1 " ++ status ++ "\r\n" ++ "Date: " ++ now ++ "\r\n"
      ++ "Server: COMP2322Project_PythonServer/1.0\r\n"
      ++ (match ct with
          | some c => if c ≠ "" then "Content-Type: " ++ c ++ "\r\n" else ""
          | none => "")
      ++ (match cl with
          | some n => if n ≠ 0 then "Content-Length: " ++ Nat.repr n ++ "\r\n" else ""
          | none => "")).data,
    ("Connection: " ++ conn ++ "\r\n\r\n").data, ?_⟩
  simp [generate_headers, hlm, String.data_append, List.append_assoc]

/-! Claim theorems. -/

/-- C4: for every request whose resolved resource name starts with a dot
the response is 403 Forbidden, for every filesystem state whatsoever: the
conclusion holds with fs universally quantified and unconstrained, so the
decision is taken before any existence check, and a hidden path that does
not exist on disk still yields 403, never 404. -/
theorem c4_hidden_403_before_existence
    (now : String) (fs : FS) (ip : String) (buf : List Nat)
    (line1 : String) (rest : List String) (method target ver : String)
    (hlines : pySplitlines (decodeLenient buf) = line1 :: rest)
    (hsplit : pySplitWs line1 = [method, target, ver])
    (hhid : pyStartswith (resolve_target target) "." = true) :
    handle_client now fs ip buf =
      { sent := [encode (generate_headers now (ERROR 403) none none none "close" ++
          (ERROR 403 ++ ": You do not have permission to access this resource."))],
        logs := [log_line ip now (resolve_target target) (ERROR 403)] } := by
  rw [handle_client_eq_afterParse now fs ip buf line1 rest method target ver hlines hsplit]
  unfold afterParse
  simp only [hhid, if_true]

/-- Witness for C4: a request for /.env against an empty filesystem (the
hidden file does not exist) still yields 403, not 404. -/
theorem c4_hidden_403_before_existence_witness :
    handle_client "T0" [] "1.2.3.4" (encode "GET /.env HTTP/1.1\r\n\r\n") =
      { sent := [encode (generate_headers "T0" (ERROR 403) none none none "close" ++
          (ERROR 403 ++ ": You do not have permission to access this resource."))],
        logs := [log_line "1.2.3.4" "T0" (resolve_target "/.env") (ERROR 403)] } :=
  c4_hidden_403_before_existence "T0" [] "1.2.3.4" (encode "GET /.env HTTP/1.1\r\n\r\n")
    "GET /.env HTTP/1.1" [""] "GET" "/.env" "HTTP/1.1"
    (by decide) (by decide) (by decide)

set_option maxRecDepth 8000 in
/-- C1 counterexample: for an existing, supported, non-hidden but EMPTY
file, the 200 response carries no Content-Length header at all (the
Python truthiness test on the integer 0 suppresses the field line), so
the claim that Content-Length always equals the byte size of the file,
including for empty files, is false on the code. -/
theorem c1_empty_file_omits_content_length :
    (handle_client "T0" [("a.html", FileInfo.mk [] 0)] "1.2.3.4"
        (encode "GET /a.html HTTP/1.1\r\n\r\n")).logs =
      [log_line "1.2.3.4" "T0" "a.html" (ERROR 200)] ∧
    (handle_client "T0" [("a.html", FileInfo.mk [] 0)] "1.2.3.4"
        (encode "GET /a.html HTTP/1.1\r\n\r\n")).sent =
      [encode (generate_headers "T0" (ERROR 200) (some "text/html") (some 0)
        (some (formatdate 0)) "close")] ∧
    containsSeq (encode "Content-Length:")
      ((handle_client "T0" [("a.html", FileInfo.mk [] 0)] "1.2.3.4"
        (encode "GET /a.html HTTP/1.1\r\n\r\n")).sent.headD []) = false := by
  decide

/-- C1 (amended): for every GET request resolving to an existing,
non-hidden file with a supported extension, no satisfying
If-Modified-Since header, and a NONEMPTY body, the response is the 200
response whose body bytes are exactly the file bytes, its header block
starts with the status line HTTP/1.1 200 OK, and it contains a
Content-Length field line equal to the exact byte size of the file.  For
an empty file the body is still served exactly (empty) but the
Content-Length field line is omitted, as the counterexample shows. -/
theorem c1_get_200_exact_body
    (now : String) (fs : FS) (ip : String) (buf : List Nat)
    (line1 : String) (rest : List String) (target ver : String) (fi : FileInfo) (mt : String)
    (hlines : pySplitlines (decodeLenient buf) = line1 :: rest)
    (hsplit : pySplitWs line1 = ["GET", target, ver])
    (hhid : pyStartswith (resolve_target target) "." = false)
    (hfs : List.lookup (resolve_target target) fs = some fi)
    (hmt : List.lookup (splitext_ext (resolve_target target)) MEDIA_TYPES = some mt)
    (hims : ∀ l ∈ line1 :: rest, pyStartswith l "If-Modified-Since:" = true →
      ∃ t, parsedate_to_timestamp (imsValue l) = some t ∧ t < fi.mtime)
    (hne : fi.content ≠ []) :
    handle_client now fs ip buf =
      { sent := [encode (generate_headers now (ERROR 200) (some mt)
          (some fi.content.length) (some (formatdate fi.mtime)) "close") ++ fi.content],
        logs := [log_line ip now (resolve_target target) (ERROR 200)] } ∧
    (∃ z, (generate_headers now (ERROR 200) (some mt) (some fi.content.length)
        (some (formatdate fi.mtime)) "close").data = ("HTTP/1.1 200 OK\r\n").data ++ z) ∧
    (∃ x y, (generate_headers now (ERROR 200) (some mt) (some fi.content.length)
        (some (formatdate fi.mtime)) "close").data =
      x ++ ("Content-Length: " ++ Nat.repr fi.content.length ++ "\r\n").data ++ y) := by
  refine ⟨?_, ?_, ?_⟩
  · rw [handle_client_eq_afterParse now fs ip buf line1 rest "GET" target ver hlines hsplit]
    unfold afterParse
    simp only [hhid, Bool.false_eq_true, if_false, hfs, hmt]
    rw [scanIMS_cont fi.mtime (line1 :: rest) hims]
    simp [serveContent]
  · obtain ⟨z, hz⟩ := generate_headers_status now (ERROR 200) (some mt)
      (some fi.content.length) (some (formatdate fi.mtime)) "close"
    refine ⟨z, ?_⟩
    have hmerge : ("HTTP/1.1 " ++ ERROR 200 ++ "\r\n").data =
        ("HTTP/1.1 200 OK\r\n" : String).data := by decide
    rw [hz, hmerge]
  · exact generate_headers_cl now (ERROR 200) (some mt) fi.content.length
      (fun h => hne (List.length_eq_zero.mp h)) (some (formatdate fi.mtime)) "close"

/-- Witness for the amended C1 at a two-byte file. -/
theorem c1_get_200_exact_body_witness :
    handle_client "T0" [("a.html", FileInfo.mk [104, 105] 2)] "1.2.3.4"
        (encode "GET /a.html HTTP/1.1\r\n\r\n") =
      { sent := [encode (generate_headers "T0" (ERROR 200) (some "text/html")
          (some (FileInfo.mk [104, 105] 2).content.length)
          (some (formatdate (FileInfo.mk [104, 105] 2).mtime)) "close") ++
          (FileInfo.mk [104, 105] 2).content],
        logs := [log_line "1.2.3.4" "T0" (resolve_target "/a.html") (ERROR 200)] } ∧
    (∃ z, (generate_headers "T0" (ERROR 200) (some "text/html")
        (some (FileInfo.mk [104, 105] 2).content.length)
        (some (formatdate (FileInfo.mk [104, 105] 2).mtime)) "close").data =
      ("HTTP/1.1 200 OK\r\n").data ++ z) ∧
    (∃ x y, (generate_headers "T0" (ERROR 200) (some "text/html")
        (some (FileInfo.mk [104, 105] 2).content.length)
        (some (formatdate (FileInfo.mk [104, 105] 2).mtime)) "close").data =
      x ++ ("Content-Length: " ++ Nat.repr (FileInfo.mk [104, 105] 2).content.length ++
        "\r\n").data ++ y) := by
  refine c1_get_200_exact_body "T0" [("a.html", FileInfo.mk [104, 105] 2)] "1.2.3.4"
    (encode "GET /a.html HTTP/1.1\r\n\r\n") "GET /a.html HTTP/1.1" [""] "/a.html" "HTTP/1.1"
    (FileInfo.mk [104, 105] 2) "text/html"
    (by decide) (by decide) (by decide) (by decide) (by decide) ?_ (by decide)
  intro l hl h
  exfalso
  rcases List.mem_cons.mp hl with rfl | hl2
  · exact absurd h (by decide)
  · rcases List.mem_singleton.mp hl2 with rfl
    exact absurd h (by decide)

/-- C2: for every request (any method) on an existing, supported,
non-hidden resource whose If-Modified-Since lines all parse: if some
If-Modified-Since line parses to a timestamp at or above the resource
modification timestamp, the response is the bodyless 304; if every such
line parses strictly below it (in particular when the header is absent),
the pipeline continues to content serving (the method-dispatch stage). -/
theorem c2_conditional_evaluation
    (now : String) (fs : FS) (ip : String) (buf : List Nat)
    (line1 : String) (rest : List String) (method target ver : String)
    (fi : FileInfo) (mt : String)
    (hlines : pySplitlines (decodeLenient buf) = line1 :: rest)
    (hsplit : pySplitWs line1 = [method, target, ver])
    (hhid : pyStartswith (resolve_target target) "." = false)
    (hfs : List.lookup (resolve_target target) fs = some fi)
    (hmt : List.lookup (splitext_ext (resolve_target target)) MEDIA_TYPES = some mt) :
    ((∀ l ∈ line1 :: rest, pyStartswith l "If-Modified-Since:" = true →
        ∃ t, parsedate_to_timestamp (imsValue l) = some t) →
      (∃ l ∈ line1 :: rest, pyStartswith l "If-Modified-Since:" = true ∧
        ∃ t, parsedate_to_timestamp (imsValue l) = some t ∧ fi.mtime ≤ t) →
      handle_client now fs ip buf =
        { sent := [encode (generate_headers now (ERROR 304) none none none "close")],
          logs := [log_line ip now (resolve_target target) (ERROR 304)] }) ∧
    ((∀ l ∈ line1 :: rest, pyStartswith l "If-Modified-Since:" = true →
        ∃ t, parsedate_to_timestamp (imsValue l) = some t ∧ t < fi.mtime) →
      handle_client now fs ip buf =
        serveContent now ip method (resolve_target target) fi mt) := by
  constructor
  · intro hall hex
    rw [handle_client_eq_afterParse now fs ip buf line1 rest method target ver hlines hsplit]
    unfold afterParse
    simp only [hhid, Bool.false_eq_true, if_false, hfs, hmt]
    rw [scanIMS_ret304 fi.mtime (line1 :: rest) hall hex]
  · intro hlt
    rw [handle_client_eq_afterParse now fs ip buf line1 rest method target ver hlines hsplit]
    unfold afterParse
    simp only [hhid, Bool.false_eq_true, if_false, hfs, hmt]
    rw [scanIMS_cont fi.mtime (line1 :: rest) hlt]

/-- Witness for C2 at a GET request whose If-Modified-Since timestamp (5)
is at or above the file modification timestamp (2): the bodyless 304. -/
theorem c2_conditional_evaluation_witness :
    handle_client "T0" [("a.html", FileInfo.mk [104] 2)] "1.2.3.4"
        (encode "GET /a.html HTTP/1.1\r\nIf-Modified-Since: D+5\r\n\r\n") =
      { sent := [encode (generate_headers "T0" (ERROR 304) none none none "close")],
        logs := [log_line "1.2.3.4" "T0" (resolve_target "/a.html") (ERROR 304)] } := by
  refine (c2_conditional_evaluation "T0" [("a.html", FileInfo.mk [104] 2)] "1.2.3.4"
    (encode "GET /a.html HTTP/1.1\r\nIf-Modified-Since: D+5\r\n\r\n")
    "GET /a.html HTTP/1.1" ["If-Modified-Since: D+5", ""] "GET" "/a.html" "HTTP/1.1"
    (FileInfo.mk [104] 2) "text/html"
    (by decide) (by decide) (by decide) (by decide) (by decide)).1 ?_ ?_
  · intro l hl h
    rcases List.mem_cons.mp hl with rfl | hl2
    · exact absurd h (by decide)
    · rcases List.mem_cons.mp hl2 with rfl | hl3
      · exact ⟨5, by decide⟩
      · rcases List.mem_singleton.mp hl3 with rfl
        exact absurd h (by decide)
  · exact ⟨"If-Modified-Since: D+5", by simp, by decide, 5, by decide, by decide⟩

/-- C9: conditional evaluation happens before method dispatch: a request
with ANY three-token request line, including an unsupported method such
as DELETE, naming an existing, supported, non-hidden resource, whose
If-Modified-Since lines all parse and one of them is at or above the
modification timestamp, gets the 304 response (whose status line is
HTTP/1.1 304 Not Modified), not the 400 Bad Request of the
unsupported-method branch. -/
theorem c9_conditional_before_method_dispatch
    (now : String) (fs : FS) (ip : String) (buf : List Nat)
    (line1 : String) (rest : List String) (method target ver : String)
    (fi : FileInfo) (mt : String)
    (hlines : pySplitlines (decodeLenient buf) = line1 :: rest)
    (hsplit : pySplitWs line1 = [method, target, ver])
    (hhid : pyStartswith (resolve_target target) "." = false)
    (hfs : List.lookup (resolve_target target) fs = some fi)
    (hmt : List.lookup (splitext_ext (resolve_target target)) MEDIA_TYPES = some mt)
    (hall : ∀ l ∈ line1 :: rest, pyStartswith l "If-Modified-Since:" = true →
      ∃ t, parsedate_to_timestamp (imsValue l) = some t)
    (hex : ∃ l ∈ line1 :: rest, pyStartswith l "If-Modified-Since:" = true ∧
      ∃ t, parsedate_to_timestamp (imsValue l) = some t ∧ fi.mtime ≤ t) :
    handle_client now fs ip buf =
      { sent := [encode (generate_headers now (ERROR 304) none none none "close")],
        logs := [log_line ip now (resolve_target target) (ERROR 304)] } ∧
    (∃ z, (generate_headers now (ERROR 304) none none none "close").data =
      ("HTTP/1.1 304 Not Modified\r\n").data ++ z) := by
  constructor
  · rw [handle_client_eq_afterParse now fs ip buf line1 rest method target ver hlines hsplit]
    unfold afterParse
    simp only [hhid, Bool.false_eq_true, if_false, hfs, hmt]
    rw [scanIMS_ret304 fi.mtime (line1 :: rest) hall hex]
  · obtain ⟨z, hz⟩ := generate_headers_status now (ERROR 304) none none none "close"
    refine ⟨z, ?_⟩
    have hmerge : ("HTTP/1.1 " ++ ERROR 304 ++ "\r\n").data =
        ("HTTP/1.1 304 Not Modified\r\n" : String).data := by decide
    rw [hz, hmerge]

/-- Witness for C9: a DELETE request with a satisfying If-Modified-Since
gets 304, not the unsupported-method 400. -/
theorem c9_conditional_before_method_dispatch_witness :
    handle_client "T0" [("a.html", FileInfo.mk [104] 2)] "1.2.3.4"
        (encode "DELETE /a.html HTTP/1.1\r\nIf-Modified-Since: D+5\r\n\r\n") =
      { sent := [encode (generate_headers "T0" (ERROR 304) none none none "close")],
        logs := [log_line "1.2.3.4" "T0" (resolve_target "/a.html") (ERROR 304)] } ∧
    (∃ z, (generate_headers "T0" (ERROR 304) none none none "close").data =
      ("HTTP/1.1 304 Not Modified\r\n").data ++ z) := by
  refine c9_conditional_before_method_dispatch "T0" [("a.html", FileInfo.mk [104] 2)]
    "1.2.3.4" (encode "DELETE /a.html HTTP/1.1\r\nIf-Modified-Since: D+5\r\n\r\n")
    "DELETE /a.html HTTP/1.1" ["If-Modified-Since: D+5", ""] "DELETE" "/a.html" "HTTP/1.1"
    (FileInfo.mk [104] 2) "text/html"
    (by decide) (by decide) (by decide) (by decide) (by decide) ?_ ?_
  · intro l hl h
    rcases List.mem_cons.mp hl with rfl | hl2
    · exact absurd h (by decide)
    · rcases List.mem_cons.mp hl2 with rfl | hl3
      · exact ⟨5, by decide⟩
      · rcases List.mem_singleton.mp hl3 with rfl
        exact absurd h (by decide)
  · exact ⟨"If-Modified-Since: D+5", by simp, by decide, 5, by decide, by decide⟩

set_option maxRecDepth 8000 in
/-- C3 counterexample: a first line with MORE than three tokens does not
get the 400 Bad Request the claim promises: it passes the malformed
check (which only tests for fewer than three tokens), then the three-way
unpacking on src/main.py line 75 raises ValueError, and the catch-all
handler produces a 500 response logged as Unknown Error. -/
theorem c3_four_token_line_gives_500 :
    (handle_client "T0" [] "1.2.3.4" (encode "GET /a HTTP/1.1 extra\r\n\r\n")).logs =
      [log_line "1.2.3.4" "T0" "Unknown Error" (ERROR 500)] ∧
    containsSeq (encode "HTTP/1.1 400")
      ((handle_client "T0" [] "1.2.3.4"
        (encode "GET /a HTTP/1.1 extra\r\n\r\n")).sent.headD []) = false ∧
    containsSeq (encode "HTTP/1.1 500 Internal Server Error")
      ((handle_client "T0" [] "1.2.3.4"
        (encode "GET /a HTTP/1.1 extra\r\n\r\n")).sent.headD []) = true := by
  decide

/-- C3 (amended): for a non-empty decoded buffer, a first line with
FEWER than three whitespace-separated tokens (or no lines at all) yields
the syntactic 400 Bad Request with exactly one log entry labelled
Malformed HTTP request, and no later pipeline stage runs; a first line
with MORE than three tokens instead reaches the unpacking step, whose
failure lands in the catch-all handler: a 500 response logged as Unknown
Error. -/
theorem c3_malformed_request_line
    (now : String) (fs : FS) (ip : String) (buf : List Nat)
    (hne : decodeLenient buf ≠ "") :
    ((pySplitlines (decodeLenient buf) = [] ∨
        (pySplitWs ((pySplitlines (decodeLenient buf)).headD "")).length < 3) →
      handle_client now fs ip buf =
        { sent := [encode (generate_headers now (ERROR 400) none none none "close" ++
            ERROR 400)],
          logs := [log_line ip now "Malformed HTTP request" (ERROR 400)] }) ∧
    (∀ line1 rest, pySplitlines (decodeLenient buf) = line1 :: rest →
      3 < (pySplitWs line1).length →
      handle_client now fs ip buf = serverError now ip) := by
  constructor
  · intro hcond
    unfold handle_client
    rw [if_neg hne, if_pos hcond]
  · intro line1 rest hlines hlen
    obtain ⟨a, b, c, d, tl, hw⟩ :
        ∃ a b c d tl, pySplitWs line1 = a :: b :: c :: d :: tl := by
      rcases hli : pySplitWs line1 with _ | ⟨a, _ | ⟨b, _ | ⟨c, _ | ⟨d, tl⟩⟩⟩⟩
      · rw [hli] at hlen; simp at hlen
      · rw [hli] at hlen; simp at hlen
      · rw [hli] at hlen; simp at hlen
      · rw [hli] at hlen; simp at hlen
      · exact ⟨a, b, c, d, tl, rfl⟩
    unfold handle_client
    rw [if_neg hne, hlines]
    simp only [List.headD_cons]
    rw [if_neg (by simp [hw]), hw]

/-- Witness for the amended C3: a two-token request line gets the
syntactic 400 with the Malformed HTTP request log label. -/
theorem c3_malformed_request_line_witness :
    handle_client "T0" [] "1.2.3.4" (encode "GET /a\r\n\r\n") =
      { sent := [encode (generate_headers "T0" (ERROR 400) none none none "close" ++
          ERROR 400)],
        logs := [log_line "1.2.3.4" "T0" "Malformed HTTP request" (ERROR 400)] } :=
  (c3_malformed_request_line "T0" [] "1.2.3.4" (encode "GET /a\r\n\r\n")
    (by decide)).1 (by decide)

set_option maxRecDepth 8000 in
/-- C5 counterexample: for a file whose modification timestamp is one
half (a fractional number of seconds, as os.path.getmtime routinely
returns), the Last-Modified value of the 200 response renders the floor
(zero seconds); replaying that exact value as If-Modified-Since parses
back to zero, which is strictly below one half, so the second request is
served with 200 again, not 304: the round trip fails. -/
theorem c5_fractional_mtime_roundtrip_fails :
    formatdate (mkRat 1 2) = "D+" ∧
    (handle_client "T0" [("a.html", FileInfo.mk [104] (mkRat 1 2))] "1.2.3.4"
        (encode "GET /a.html HTTP/1.1\r\n\r\n")).logs =
      [log_line "1.2.3.4" "T0" "a.html" (ERROR 200)] ∧
    containsSeq (encode "Last-Modified: D+\r\n")
      ((handle_client "T0" [("a.html", FileInfo.mk [104] (mkRat 1 2))] "1.2.3.4"
        (encode "GET /a.html HTTP/1.1\r\n\r\n")).sent.headD []) = true ∧
    (handle_client "T0" [("a.html", FileInfo.mk [104] (mkRat 1 2))] "1.2.3.4"
        (encode "GET /a.html HTTP/1.1\r\nIf-Modified-Since: D+\r\n\r\n")).logs =
      [log_line "1.2.3.4" "T0" "a.html" (ERROR 200)] ∧
    containsSeq (encode "HTTP/1.1 304")
      ((handle_client "T0" [("a.html", FileInfo.mk [104] (mkRat 1 2))] "1.2.3.4"
        (encode "GET /a.html HTTP/1.1\r\nIf-Modified-Since: D+\r\n\r\n")).sent.headD [])
      = false := by
  decide

/-- C5 (amended): the conditional round trip holds whenever the resource
modification timestamp is a whole number of seconds: the Last-Modified
value of a 200 response for the resource is its rendered date, and a
second request for the unchanged resource carrying If-Modified-Since
with exactly that value yields the bodyless 304.  For a fractional
timestamp the rendered date truncates and the round trip yields 200
instead, as the counterexample shows. -/
theorem c5_roundtrip_integral_mtime
    (now : String) (fs : FS) (ip : String) (buf : List Nat)
    (line1 : String) (rest : List String) (method target ver : String)
    (fi : FileInfo) (mt : String)
    (hlines : pySplitlines (decodeLenient buf) = line1 :: rest)
    (hsplit : pySplitWs line1 = [method, target, ver])
    (hhid : pyStartswith (resolve_target target) "." = false)
    (hfs : List.lookup (resolve_target target) fs = some fi)
    (hmt : List.lookup (splitext_ext (resolve_target target)) MEDIA_TYPES = some mt)
    (hint : ((Int.floor fi.mtime : ℤ) : ℚ) = fi.mtime)
    (hcapture : ∀ l ∈ line1 :: rest, pyStartswith l "If-Modified-Since:" = true →
      imsValue l = formatdate fi.mtime)
    (hexists : ∃ l ∈ line1 :: rest, pyStartswith l "If-Modified-Since:" = true) :
    handle_client now fs ip buf =
      { sent := [encode (generate_headers now (ERROR 304) none none none "close")],
        logs := [log_line ip now (resolve_target target) (ERROR 304)] } ∧
    (∃ x y, (generate_headers now (ERROR 200) (some mt) (some fi.content.length)
        (some (formatdate fi.mtime)) "close").data =
      x ++ ("Last-Modified: " ++ formatdate fi.mtime ++ "\r\n").data ++ y) := by
  constructor
  · have hall : ∀ l ∈ line1 :: rest, pyStartswith l "If-Modified-Since:" = true →
        ∃ t, parsedate_to_timestamp (imsValue l) = some t := by
      intro l hl h
      rw [hcapture l hl h, parsedate_formatdate]
      exact ⟨_, rfl⟩
    have hex : ∃ l ∈ line1 :: rest, pyStartswith l "If-Modified-Since:" = true ∧
        ∃ t, parsedate_to_timestamp (imsValue l) = some t ∧ fi.mtime ≤ t := by
      obtain ⟨l, hl, h⟩ := hexists
      refine ⟨l, hl, h, ((Int.floor fi.mtime : ℤ) : ℚ), ?_, ?_⟩
      · rw [hcapture l hl h, parsedate_formatdate]
      · rw [hint]
    rw [handle_client_eq_afterParse now fs ip buf line1 rest method target ver hlines hsplit]
    unfold afterParse
    simp only [hhid, Bool.false_eq_true, if_false, hfs, hmt]
    rw [scanIMS_ret304 fi.mtime (line1 :: rest) hall hex]
  · exact generate_headers_lm now (ERROR 200) (some mt) (some fi.content.length)
      (formatdate fi.mtime) (formatdate_ne_empty fi.mtime) "close"

/-- Witness for the amended C5 at a whole-second timestamp: replaying
the rendered date of timestamp 2 yields 304. -/
theorem c5_roundtrip_integral_mtime_witness :
    handle_client "T0" [("a.html", FileInfo.mk [104] 2)] "1.2.3.4"
        (encode "GET /a.html HTTP/1.1\r\nIf-Modified-Since: D+2\r\n\r\n") =
      { sent := [encode (generate_headers "T0" (ERROR 304) none none none "close")],
        logs := [log_line "1.2.3.4" "T0" (resolve_target "/a.html") (ERROR 304)] } ∧
    (∃ x y, (generate_headers "T0" (ERROR 200) (some "text/html")
        (some (FileInfo.mk [104] 2).content.length)
        (some (formatdate (FileInfo.mk [104] 2).mtime)) "close").data =
      x ++ ("Last-Modified: " ++ formatdate (FileInfo.mk [104] 2).mtime ++
        "\r\n").data ++ y) := by
  refine c5_roundtrip_integral_mtime "T0" [("a.html", FileInfo.mk [104] 2)] "1.2.3.4"
    (encode "GET /a.html HTTP/1.1\r\nIf-Modified-Since: D+2\r\n\r\n")
    "GET /a.html HTTP/1.1" ["If-Modified-Since: D+2", ""] "GET" "/a.html" "HTTP/1.1"
    (FileInfo.mk [104] 2) "text/html"
    (by decide) (by decide) (by decide) (by decide) (by decide) (by decide) ?_ ?_
  · intro l hl h
    rcases List.mem_cons.mp hl with rfl | hl2
    · exact absurd h (by decide)
    · rcases List.mem_cons.mp hl2 with rfl | hl3
      · decide
      · rcases List.mem_singleton.mp hl3 with rfl
        exact absurd h (by decide)
  · exact ⟨"If-Modified-Since: D+2", by simp, by decide⟩

/-- The catch-all handler emits exactly one response and one log line. -/
theorem serverError_shape (now ip : String) :
    (serverError now ip).sent.length = 1 ∧ (serverError now ip).logs.length = 1 :=
  ⟨rfl, rfl⟩

/-- Method dispatch emits exactly one response and one log line on every
branch. -/
theorem serveContent_shape (now ip method fr : String) (fi : FileInfo) (mt : String) :
    (serveContent now ip method fr fi mt).sent.length = 1 ∧
    (serveContent now ip method fr fi mt).logs.length = 1 := by
  unfold serveContent
  by_cases h1 : method = "GET"
  · simp [h1]
  · by_cases h2 : method = "HEAD" <;> simp [h1, h2]

/-- The post-parse pipeline emits exactly one response and one log line
on every branch. -/
theorem afterParse_shape (now : String) (fs : FS) (ip : String) (lines : List String)
    (method path : String) :
    (afterParse now fs ip lines method path).sent.length = 1 ∧
    (afterParse now fs ip lines method path).logs.length = 1 := by
  unfold afterParse
  by_cases hh : pyStartswith (resolve_target path) "." = true
  · simp [hh]
  · rw [Bool.not_eq_true] at hh
    simp only [hh, Bool.false_eq_true, if_false]
    rcases hfs : List.lookup (resolve_target path) fs with _ | fi
    · simp [hfs]
    · simp only [hfs]
      rcases hmt : List.lookup (splitext_ext (resolve_target path)) MEDIA_TYPES with _ | mt
      · simp [hmt]
      · simp only [hmt]
        rcases hscan : scanIMS fi.mtime lines with _ | _ | _
        · simp [hscan]
        · simp only [hscan]
          exact serveContent_shape now ip method (resolve_target path) fi mt
        · simp only [hscan]
          exact serverError_shape now ip

/-- C6: every connection whose first read decodes to at least one
character gets exactly one response chunk and exactly one log line, on
every reachable path including the catch-all 500 path; a read that
decodes to nothing is closed silently, with no response and no log. -/
theorem c6_one_response_one_log (now : String) (fs : FS) (ip : String) (buf : List Nat) :
    (decodeLenient buf ≠ "" →
      (handle_client now fs ip buf).sent.length = 1 ∧
      (handle_client now fs ip buf).logs.length = 1) ∧
    (decodeLenient buf = "" →
      handle_client now fs ip buf = { sent := [], logs := [] }) := by
  constructor
  · intro hne
    unfold handle_client
    rw [if_neg hne]
    by_cases hcond : (pySplitlines (decodeLenient buf) = [] ∨
        (pySplitWs ((pySplitlines (decodeLenient buf)).headD "")).length < 3)
    · rw [if_pos hcond]
      exact ⟨rfl, rfl⟩
    · rw [if_neg hcond]
      rcases hw : pySplitWs ((pySplitlines (decodeLenient buf)).headD "") with
        _ | ⟨m, _ | ⟨p, _ | ⟨v, _ | ⟨w, tl2⟩⟩⟩⟩
      · simp only [hw]
        exact serverError_shape now ip
      · simp only [hw]
        exact serverError_shape now ip
      · simp only [hw]
        exact serverError_shape now ip
      · simp only [hw]
        exact afterParse_shape now fs ip (pySplitlines (decodeLenient buf)) m p
      · simp only [hw]
        exact serverError_shape now ip
  · intro he
    unfold handle_client
    rw [if_pos he]

/-- Witness for C6: a one-byte decodable read produces one response and
one log line; a one-byte undecodable read is closed silently. -/
theorem c6_one_response_one_log_witness :
    ((handle_client "T0" [] "1.2.3.4" [71]).sent.length = 1 ∧
      (handle_client "T0" [] "1.2.3.4" [71]).logs.length = 1) ∧
    handle_client "T0" [] "1.2.3.4" [255] = { sent := [], logs := [] } :=
  ⟨(c6_one_response_one_log "T0" [] "1.2.3.4" [71]).1 (by decide),
   (c6_one_response_one_log "T0" [] "1.2.3.4" [255]).2 (by decide)⟩

/-- Formalisation of the wording of the spec, for comparison with the
code: strip a SINGLE leading path separator from the target, then
substitute the default document for an empty result. -/
def resolveSingleStrip (target : String) : String :=
  let stripped := if pyStartswith target "/" then String.mk (target.data.drop 1) else target
  if stripped = "" then DEFAULT_PAGE else stripped

set_option maxRecDepth 8000 in
/-- C7 counterexample: on the target //.env the resolution of the code
(src/main.py line 76 uses lstrip, which strips ALL leading slashes)
differs from the single-separator strip the claim describes: the code
resolves to the hidden name .env and answers 403, while a
single-separator strip would give /.env, which is not a hidden name. -/
theorem c7_single_strip_refuted :
    resolveSingleStrip "//.env" = "/.env" ∧
    resolve_target "//.env" = ".env" ∧
    resolveSingleStrip "//.env" ≠ resolve_target "//.env" ∧
    pyStartswith (resolveSingleStrip "//.env") "." = false ∧
    (handle_client "T0" [] "1.2.3.4" (encode "GET //.env HTTP/1.1\r\n\r\n")).logs =
      [log_line "1.2.3.4" "T0" ".env" (ERROR 403)] := by
  decide

/-- C7 (amended): path resolution strips ALL leading path separators
(not just one) and substitutes the configured default document when
nothing remains; in particular any target consisting solely of slashes,
such as /, resolves to the default document, which is served (not 404)
when it exists. -/
theorem c7_resolution_default_page
    (now : String) (fs : FS) (ip : String) (buf : List Nat)
    (line1 : String) (rest : List String) (target ver : String) (fi : FileInfo)
    (hlines : pySplitlines (decodeLenient buf) = line1 :: rest)
    (hsplit : pySplitWs line1 = ["GET", target, ver])
    (hall : lstripSlash target = "")
    (hfs : List.lookup DEFAULT_PAGE fs = some fi)
    (hims : ∀ l ∈ line1 :: rest, pyStartswith l "If-Modified-Since:" = true →
      ∃ t, parsedate_to_timestamp (imsValue l) = some t ∧ t < fi.mtime) :
    resolve_target target = DEFAULT_PAGE ∧
    resolve_target "/" = DEFAULT_PAGE ∧
    handle_client now fs ip buf =
      { sent := [encode (generate_headers now (ERROR 200) (some "text/html")
          (some fi.content.length) (some (formatdate fi.mtime)) "close") ++ fi.content],
        logs := [log_line ip now DEFAULT_PAGE (ERROR 200)] } := by
  have hrt : resolve_target target = DEFAULT_PAGE := by
    unfold resolve_target
    rw [hall]
    rfl
  refine ⟨hrt, by decide, ?_⟩
  rw [handle_client_eq_afterParse now fs ip buf line1 rest "GET" target ver hlines hsplit]
  unfold afterParse
  have hmt : List.lookup (splitext_ext DEFAULT_PAGE) MEDIA_TYPES = some "text/html" := by
    decide
  simp only [hrt, hfs, hmt]
  rw [if_neg (by decide)]
  rw [scanIMS_cont fi.mtime (line1 :: rest) hims]
  simp [serveContent]

/-- Witness for the amended C7: a GET for / is served from index.html. -/
theorem c7_resolution_default_page_witness :
    resolve_target "/" = DEFAULT_PAGE ∧
    resolve_target "/" = DEFAULT_PAGE ∧
    handle_client "T0" [("index.html", FileInfo.mk [60] 1)] "1.2.3.4"
        (encode "GET / HTTP/1.1\r\n\r\n") =
      { sent := [encode (generate_headers "T0" (ERROR 200) (some "text/html")
          (some (FileInfo.mk [60] 1).content.length)
          (some (formatdate (FileInfo.mk [60] 1).mtime)) "close") ++
          (FileInfo.mk [60] 1).content],
        logs := [log_line "1.2.3.4" "T0" DEFAULT_PAGE (ERROR 200)] } := by
  refine c7_resolution_default_page "T0" [("index.html", FileInfo.mk [60] 1)] "1.2.3.4"
    (encode "GET / HTTP/1.1\r\n\r\n") "GET / HTTP/1.1" [""] "/" "HTTP/1.1"
    (FileInfo.mk [60] 1) (by decide) (by decide) (by decide) (by decide) ?_
  intro l hl h
  exfalso
  rcases List.mem_cons.mp hl with rfl | hl2
  · exact absurd h (by decide)
  · rcases List.mem_singleton.mp hl2 with rfl
    exact absurd h (by decide)

set_option maxRecDepth 8000 in
/-- C8 counterexample: the log label for a syntactic parse failure is
the string Malformed HTTP request, not the sentinel BAD REQUEST the
claim names; the produced log line does not contain BAD REQUEST at
all. -/
theorem c8_malformed_sentinel_differs :
    (handle_client "T0" [] "1.2.3.4" (encode "BADLINE\r\n\r\n")).logs =
      [log_line "1.2.3.4" "T0" "Malformed HTTP request" (ERROR 400)] ∧
    containsSeq ("BAD REQUEST".data)
      (((handle_client "T0" [] "1.2.3.4" (encode "BADLINE\r\n\r\n")).logs.headD "").data)
      = false := by
  decide

/-- Every log line of the method-dispatch stage carries either the
resolved resource label or the Invalid Method sentinel, with status 200
or 400. -/
theorem serveContent_log (now ip method fr : String) (fi : FileInfo) (mt : String) :
    ∀ e ∈ (serveContent now ip method fr fi mt).logs, ∃ label status,
      e = log_line ip now label status ∧ (label = fr ∨ label = "Invalid Method") ∧
      (status = ERROR 200 ∨ status = ERROR 400) := by
  intro e he
  unfold serveContent at he
  by_cases h1 : method = "GET"
  · simp only [h1, if_true] at he
    rw [List.mem_singleton] at he
    exact ⟨fr, ERROR 200, he, Or.inl rfl, Or.inl rfl⟩
  · by_cases h2 : method = "HEAD"
    · simp only [h1, h2, if_false, if_true] at he
      rw [if_neg (by decide)] at he
      rw [List.mem_singleton] at he
      exact ⟨fr, ERROR 200, he, Or.inl rfl, Or.inl rfl⟩
    · simp only [h1, h2, if_false] at he
      rw [List.mem_singleton] at he
      exact ⟨"Invalid Method", ERROR 400, he, Or.inr rfl, Or.inr rfl⟩

/-- Every log line of the post-parse pipeline carries either the
resolved resource label or one of the sentinels Invalid Method and
Unknown Error, with one of the taxonomy statuses. -/
theorem afterParse_log (now : String) (fs : FS) (ip : String) (lines : List String)
    (method path : String) :
    ∀ e ∈ (afterParse now fs ip lines method path).logs, ∃ label status,
      e = log_line ip now label status ∧
      (label = resolve_target path ∨ label = "Invalid Method" ∨ label = "Unknown Error") ∧
      (status = ERROR 200 ∨ status = ERROR 304 ∨ status = ERROR 400 ∨
        status = ERROR 403 ∨ status = ERROR 404 ∨ status = ERROR 415 ∨
        status = ERROR 500) := by
  intro e he
  unfold afterParse at he
  by_cases hh : pyStartswith (resolve_target path) "." = true
  · simp only [hh, if_true] at he
    rw [List.mem_singleton] at he
    exact ⟨resolve_target path, ERROR 403, he, Or.inl rfl, by tauto⟩
  · rw [Bool.not_eq_true] at hh
    simp only [hh, Bool.false_eq_true, if_false] at he
    rcases hfs : List.lookup (resolve_target path) fs with _ | fi
    · simp only [hfs] at he
      rw [List.mem_singleton] at he
      exact ⟨resolve_target path, ERROR 404, he, Or.inl rfl, by tauto⟩
    · simp only [hfs] at he
      rcases hmt : List.lookup (splitext_ext (resolve_target path)) MEDIA_TYPES with _ | mt
      · simp only [hmt] at he
        rw [List.mem_singleton] at he
        exact ⟨resolve_target path, ERROR 415, he, Or.inl rfl, by tauto⟩
      · simp only [hmt] at he
        rcases hscan : scanIMS fi.mtime lines with _ | _ | _
        · simp only [hscan] at he
          rw [List.mem_singleton] at he
          exact ⟨resolve_target path, ERROR 304, he, Or.inl rfl, by tauto⟩
        · simp only [hscan] at he
          obtain ⟨label, status, heq, hlab, hst⟩ :=
            serveContent_log now ip method (resolve_target path) fi mt e he
          exact ⟨label, status, heq, by tauto, by tauto⟩
        · simp only [hscan, serverError] at he
          rw [List.mem_singleton] at he
          exact ⟨"Unknown Error", ERROR 500, he, by tauto, by tauto⟩

/-- C8 (amended): every log entry has the form
ip - timestamp - label - status followed by a newline, where the label
is the resolved resource path when one was resolved and otherwise one of
the sentinels Malformed HTTP request (syntactic parse failure, not the
string BAD REQUEST the spec names), Invalid Method (unsupported method),
or Unknown Error (the 500 path), and the status is one of the seven
taxonomy status strings. -/
theorem c8_log_entry_format (now : String) (fs : FS) (ip : String) (buf : List Nat) :
    ∀ e ∈ (handle_client now fs ip buf).logs, ∃ label status,
      e = ip ++ " - " ++ now ++ " - " ++ label ++ " - " ++ status ++ "\n" ∧
      (label = "Malformed HTTP request" ∨ label = "Invalid Method" ∨
        label = "Unknown Error" ∨
        label = resolve_target (requestTarget (decodeLenient buf))) ∧
      (status = ERROR 200 ∨ status = ERROR 304 ∨ status = ERROR 400 ∨
        status = ERROR 403 ∨ status = ERROR 404 ∨ status = ERROR 415 ∨
        status = ERROR 500) := by
  intro e he
  simp only [handle_client] at he
  by_cases hd : decodeLenient buf = ""
  · rw [if_pos hd] at he
    simp at he
  · rw [if_neg hd] at he
    by_cases hcond : (pySplitlines (decodeLenient buf) = [] ∨
        (pySplitWs ((pySplitlines (decodeLenient buf)).headD "")).length < 3)
    · rw [if_pos hcond] at he
      rw [List.mem_singleton] at he
      exact ⟨"Malformed HTTP request", ERROR 400, he, by tauto, by tauto⟩
    · rw [if_neg hcond] at he
      rcases hw : pySplitWs ((pySplitlines (decodeLenient buf)).headD "") with
        _ | ⟨m, _ | ⟨p, _ | ⟨v, _ | ⟨w, tl2⟩⟩⟩⟩
      · simp only [hw, serverError] at he
        rw [List.mem_singleton] at he
        exact ⟨"Unknown Error", ERROR 500, he, by tauto, by tauto⟩
      · simp only [hw, serverError] at he
        rw [List.mem_singleton] at he
        exact ⟨"Unknown Error", ERROR 500, he, by tauto, by tauto⟩
      · simp only [hw, serverError] at he
        rw [List.mem_singleton] at he
        exact ⟨"Unknown Error", ERROR 500, he, by tauto, by tauto⟩
      · simp only [hw] at he
        obtain ⟨label, status, heq, hlab, hst⟩ :=
          afterParse_log now fs ip (pySplitlines (decodeLenient buf)) m p e he
        have hrt : requestTarget (decodeLenient buf) = p := by
          unfold requestTarget
          rw [hw]
        refine ⟨label, status, heq, ?_, by tauto⟩
        rcases hlab with h | h | h
        · right; right; right; rw [h, hrt]
        · tauto
        · tauto
      · simp only [hw, serverError] at he
        rw [List.mem_singleton] at he
        exact ⟨"Unknown Error", ERROR 500, he, by tauto, by tauto⟩

/-- Witness for the amended C8 on a 404 log entry. -/
theorem c8_log_entry_format_witness :
    ∃ label status,
      (handle_client "T0" [] "1.2.3.4" (encode "GET /x.html HTTP/1.1\r\n\r\n")).logs.headD ""
        = "1.2.3.4" ++ " - " ++ "T0" ++ " - " ++ label ++ " - " ++ status ++ "\n" ∧
      (label = "Malformed HTTP request" ∨ label = "Invalid Method" ∨
        label = "Unknown Error" ∨
        label = resolve_target (requestTarget (decodeLenient
          (encode "GET /x.html HTTP/1.1\r\n\r\n")))) ∧
      (status = ERROR 200 ∨ status = ERROR 304 ∨ status = ERROR 400 ∨
        status = ERROR 403 ∨ status = ERROR 404 ∨ status = ERROR 415 ∨
        status = ERROR 500) :=
  c8_log_entry_format "T0" [] "1.2.3.4" (encode "GET /x.html HTTP/1.1\r\n\r\n")
    ((handle_client "T0" [] "1.2.3.4" (encode "GET /x.html HTTP/1.1\r\n\r\n")).logs.headD "")
    (by decide)

/-- C10: a non-empty received buffer that decodes to the empty string
under the lenient decode (every byte invalid and discarded) is treated
exactly like a zero-byte read: the handler closes silently with no
response sent and no log entry written, identically to its behaviour on
the empty buffer, rather than rejecting the request as a 400. -/
theorem c10_undecodable_buffer_silent
    (now : String) (fs : FS) (ip : String) (buf : List Nat)
    (hne : buf ≠ []) (hdec : decodeLenient buf = "") :
    handle_client now fs ip buf = { sent := [], logs := [] } ∧
    handle_client now fs ip buf = handle_client now fs ip [] := by
  have h1 : handle_client now fs ip buf = { sent := [], logs := [] } := by
    unfold handle_client
    rw [if_pos hdec]
  refine ⟨h1, ?_⟩
  rw [h1]
  rfl

/-- Witness for C10: a two-byte buffer of invalid UTF-8 lead bytes is
closed silently. -/
theorem c10_undecodable_buffer_silent_witness :
    handle_client "T0" [] "1.2.3.4" [255, 254] = { sent := [], logs := [] } ∧
    handle_client "T0" [] "1.2.3.4" [255, 254] = handle_client "T0" [] "1.2.3.4" [] :=
  c10_undecodable_buffer_silent "T0" [] "1.2.3.4" [255, 254] (by decide) (by decide)
